import Mathlib

/-!
# Verification of `src/compile-packages.mjs`

A shallow embedding of the monorepo build-orchestration script
`compile-packages.mjs`.  The script discovers workspace packages, orders
them by dependencies, and for each non-skipped package copies shared
files, computes TypeScript entry points, and issues two bundle actions
plus a type-declaration emission.

External collaborators (`@lerna/*`, `esbuild`, `typescript`, `fs`,
`fast-glob`) are modelled as follows: the filesystem is an explicit
association list from paths to contents; the lerna batching result is an
input constrained by its documented contract; the bundler is an oracle
whose outcome the script never consumes; the TypeScript program's
diagnostics are inputs to the declaration emitter.
-/

/-- A filesystem path (the script normalizes separators to `/`). -/
abbrev FPath := String

/-- A package descriptor, as produced by workspace discovery:
`name`, `location` (package directory), the optional `scripts.build`
field of its manifest, its `private` flag, and its declared dependency
names. -/
structure Package where
  name : String
  location : String
  scriptsBuild : Option String
  isPrivate : Bool
  deps : List String
  deriving DecidableEq, Repr

/-- The filesystem: an association list from paths to file contents.
The first binding for a path wins. -/
abbrev FS := List (FPath × String)

/-- Embeds `fs.existsSync`: does a file exist at path `p`? -/
def existsSync (fsys : FS) (p : FPath) : Bool :=
  fsys.any (fun e => e.1 == p)

/-- Read the contents of the file at `p`, if present. -/
def readFile (fsys : FS) (p : FPath) : Option String :=
  (fsys.find? (fun e => e.1 == p)).map (fun e => e.2)

/-- Write contents `c` at path `p` (overwriting any previous file). -/
def writeFile (fsys : FS) (p : FPath) (c : String) : FS :=
  (p, c) :: fsys.filter (fun e => e.1 != p)

/-- Embeds `fs.copyFileSync src dst`: fails when the source file is missing
(the spec's `MissingSharedFileError`), otherwise overwrites `dst` with
the contents of `src`. -/
def copyFileSync (fsys : FS) (src dst : FPath) : Except String FS :=
  match readFile fsys src with
  | none => .error ("MissingSharedFileError: " ++ src)
  | some c => .ok (writeFile fsys dst c)

/-- JavaScript truthiness of the optional string `pkgJSON.scripts?.build`:
absent and the empty string are falsy, every other string is truthy. -/
def truthy : Option String → Bool
  | none => false
  | some s => s != ""

/-- Embeds `path.join` on normalized paths. -/
def pjoin (a b : String) : FPath := a ++ "/" ++ b

/-- String prefix test, computed on the underlying character lists. -/
def strStartsWith (s pre : String) : Bool := pre.data.isPrefixOf s.data

/-- String suffix test, computed on the underlying character lists. -/
def strEndsWith (s suf : String) : Bool := suf.data.isSuffixOf s.data

/-- Embeds `glob.sync(path.resolve(basePath, "src", "**", "**.ts"))` with
separators normalized: every file under `<basePath>/src/` whose name
ends in `.ts`. -/
def globTs (fsys : FS) (basePath : FPath) : List FPath :=
  (fsys.map (fun e => e.1)).filter
    (fun p => strStartsWith p (basePath ++ "/src/") && strEndsWith p ".ts")

/-- The two bundle output formats requested from esbuild. -/
inductive BuildFormat
  | cjs
  | esm
  deriving DecidableEq, Repr

/-- A build action issued for a package: an esbuild bundle invocation
(with its `watch` flag and whether an `onRebuild` hook is registered),
or a type-declaration emission. -/
inductive BuildAction
  | bundle (format : BuildFormat) (entryPoints : List FPath)
      (outdir : FPath) (watch : Bool) (hasRebuildHook : Bool)
  | emitDecl (entryPoints : List FPath) (outdir : FPath)
  deriving DecidableEq, Repr

/-- The result of planning one package: the filesystem after the
shared-file step, the messages logged during planning, and the build
actions issued. -/
structure PkgResult where
  fs : FS
  logs : List String
  actions : List BuildAction
  deriving DecidableEq, Repr

/-- The shared-file step (`main`, lines 52-56): when `README.md` is
absent from the package directory, copy the workspace-root `README.md`
and `LICENSE` into it; otherwise do nothing. -/
def copySharedFiles (fsys : FS) (basePath : FPath) : Except String FS :=
  if existsSync fsys (pjoin basePath "README.md") then .ok fsys
  else do
    let f1 ← copyFileSync fsys "README.md" (pjoin basePath "README.md")
    copyFileSync f1 "LICENSE" (pjoin basePath "LICENSE")

/-- The body of `packages.map(pkg => ...)` in `main` (lines 39-124):
skip when a custom build is configured; otherwise run the shared-file
step, glob the entry points, and issue the CommonJS bundle, the
ES-module bundle (whose rebuild hook exists exactly when `watch` is
set), and the declaration emission, in that order.  The `bundler`
oracle stands for the outcome of the unawaited `esbuild.build` promises;
the script never consumes it. -/
def processPackage (bundler : BuildFormat → Except String Unit)
    (fsys : FS) (watch : Bool) (pkg : Package) : Except String PkgResult :=
  let basePath := pkg.location
  if truthy pkg.scriptsBuild then
    .ok { fs := fsys
          logs := [pkg.name ++ " has custom build! skipping default build."]
          actions := [] }
  else do
    let fs1 ← copySharedFiles fsys basePath
    let entryPoints := globTs fs1 basePath
    let outdir := pjoin basePath "build"
    .ok { fs := fs1
          logs := []
          actions :=
            [ .bundle .cjs entryPoints outdir watch false
            , .bundle .esm entryPoints outdir watch watch
            , .emitDecl entryPoints outdir ] }

/-- The sequential package loop of `main`: packages are planned in
order, the filesystem state threads through, and a thrown error aborts
the whole run (no later package is planned). -/
def runPackages (bundler : BuildFormat → Except String Unit)
    (fsys : FS) (watch : Bool) : List Package → Except String (FS × List BuildAction)
  | [] => .ok (fsys, [])
  | pkg :: rest => do
    let r ← processPackage bundler fsys watch pkg
    let (fs2, acts) ← runPackages bundler r.fs watch rest
    .ok (fs2, r.actions ++ acts)

/-- Modelled from the spec: `@lerna/filter-packages` with
`includePrivate = false` (the script is missing this dependency's
source; §6 gives its contract).  Keep a package iff it globMatch `scope`
(or no `scope` is given), does not match `ignore` (or no `ignore` is
given), and is not private.  `globMatch` is the glob-match predicate. -/
def filterPackages (globMatch : String → String → Bool) (packages : List Package)
    (scope ignore : Option String) : List Package :=
  packages.filter (fun p =>
    (match scope with
     | none => true
     | some s => globMatch s p.name)
    && !(match ignore with
         | none => false
         | some i => globMatch i p.name)
    && !p.isPrivate)

/-- Embeds `getSortedPackages`, final step (lines 27-28): flatten the batches
returned by `@lerna/batch-packages` with
`reduce((arr, batch) => arr.concat(batch), [])`. -/
def getSortedPackages (batches : List (List Package)) : List Package :=
  batches.foldl (fun arr batch => arr ++ batch) []

/-- No package of `b` declares a dependency on any package of `scope`. -/
def noDepsIn (b scope : List Package) : Prop :=
  ∀ a ∈ b, ∀ c ∈ scope, ¬ c.name ∈ a.deps

instance (b scope : List Package) : Decidable (noDepsIn b scope) := by
  unfold noDepsIn; infer_instance

/-- Modelled from the spec: the contract of `@lerna/batch-packages`
(§4.2(c)): every package in batch `k` depends only on packages in
batches `< k`; equivalently, each batch has no dependencies inside its
own batch or any later batch. -/
inductive Batched : List (List Package) → Prop
  | nil : Batched []
  | cons {b : List Package} {rest : List (List Package)} :
      noDepsIn b (b ++ rest.flatten) → Batched rest → Batched (b :: rest)

/-- A TypeScript diagnostic as consumed by `emitTSDeclaration`:
the attached source file's name (if any), the zero-based line and
character returned by `ts.getLineAndCharacterOfPosition`, and the
flattened message text. -/
structure Diagnostic where
  file : Option String
  line : Nat
  character : Nat
  messageText : String
  deriving DecidableEq, Repr

/-- How `emitTSDeclaration` prints one diagnostic (lines 84-92): with
file name, one-based line and column when a source file is attached,
otherwise just the flattened message. -/
def formatDiagnostic (d : Diagnostic) : String :=
  match d.file with
  | some fn =>
      fn ++ " (" ++ toString (d.line + 1) ++ "," ++ toString (d.character + 1)
        ++ "): " ++ d.messageText
  | none => d.messageText

/-- The observable outcome of one `emitTSDeclaration` invocation:
whether `program.emit()` was invoked, and everything logged. -/
structure EmitOutcome where
  emitted : Bool
  logs : List String
  deriving DecidableEq, Repr

/-- Embeds `emitTSDeclaration` (lines 65-93): log the banner, invoke
`program.emit()` unconditionally, then print every pre-emit diagnostic
followed by every emit-result diagnostic.  The two diagnostic lists are
the external TypeScript program's output. -/
def emitTSDeclaration (pkgName : String)
    (preEmit emitDiags : List Diagnostic) : EmitOutcome :=
  { emitted := true
    logs := ("Generating .d.ts files for... " ++ pkgName)
      :: (preEmit ++ emitDiags).map formatDiagnostic }

/-- The outcome of one `onRebuild` callback invocation: the error
logged (if any) and the declaration emission performed (if any). -/
structure HookOutcome where
  errorLog : Option String
  emission : Option EmitOutcome
  deriving DecidableEq, Repr

/-- The `onRebuild` hook registered on the ES-module build in watch
mode (lines 113-119): on a failed rebuild log the error and return; on
a successful rebuild re-run `emitTSDeclaration`. -/
def onRebuild (pkgName : String) (preEmit emitDiags : List Diagnostic)
    (err : Option String) : HookOutcome :=
  match err with
  | some e => { errorLog := some e, emission := none }
  | none =>
      { errorLog := none
        emission := some (emitTSDeclaration pkgName preEmit emitDiags) }

/-! ## Helper lemmas -/

theorem getSortedPackages_eq_flatten (batches : List (List Package)) :
    getSortedPackages batches = batches.flatten := by
  have h : ∀ (bs : List (List Package)) (acc : List Package),
      bs.foldl (fun arr batch => arr ++ batch) acc = acc ++ bs.flatten := by
    intro bs
    induction bs with
    | nil => intro acc; simp
    | cons b rest ih => intro acc; simp [ih, List.append_assoc]
  simpa [getSortedPackages] using h batches []

theorem batched_take_closed {batches : List (List Package)}
    (hb : Batched batches) :
    ∀ A B : Package, B ∈ batches.flatten → B.name ∈ A.deps →
      ∀ n : Nat, A ∈ batches.flatten.take n → B ∈ batches.flatten.take n := by
  induction hb with
  | nil => intro A B hB; simp at hB
  | cons hnd hrest ih =>
    rename_i b rest
    intro A B hB hdep n hA
    rw [List.flatten_cons] at hB hA ⊢
    rw [List.take_append_eq_append_take] at hA ⊢
    rcases List.mem_append.mp hA with hA1 | hA2
    · exact absurd hdep (hnd A (List.mem_of_mem_take hA1) B hB)
    · have hlen : b.length < n := by
        by_contra hle
        push_neg at hle
        rw [Nat.sub_eq_zero_of_le hle] at hA2
        simp at hA2
      rcases List.mem_append.mp hB with hB1 | hB2
      · refine List.mem_append.mpr (Or.inl ?_)
        rw [List.take_of_length_le (le_of_lt hlen)]
        exact hB1
      · have hA2' : A ∈ rest.flatten.take (n - b.length) := hA2
        exact List.mem_append.mpr (Or.inr (ih A B hB2 hdep _ hA2'))

theorem readFile_writeFile_self (fsys : FS) (p : FPath) (c : String) :
    readFile (writeFile fsys p c) p = some c := by
  simp [readFile, writeFile]

theorem find?_filter_of_ne (l : FS) (p q : FPath) (h : p ≠ q) :
    (l.filter (fun e => e.1 != q)).find? (fun e => e.1 == p)
      = l.find? (fun e => e.1 == p) := by
  have hqp : (q == p) = false := by
    simp
    exact fun h' => h h'.symm
  induction l with
  | nil => rfl
  | cons e rest ih =>
    by_cases hq : e.1 = q
    · simp [List.filter_cons, hq, List.find?_cons, hqp, ih]
    · by_cases hp : e.1 = p
      · simp [List.filter_cons, hq, List.find?_cons, hp, h]
      · simp [List.filter_cons, hq, List.find?_cons, hp, ih]

theorem readFile_writeFile_of_ne (fsys : FS) (p q : FPath) (c : String)
    (h : p ≠ q) :
    readFile (writeFile fsys q c) p = readFile fsys p := by
  have hq : (q == p) = false := by
    simp
    exact fun h' => h h'.symm
  simp [readFile, writeFile, List.find?_cons, hq, find?_filter_of_ne fsys p q h]

theorem length_pjoin (a b : String) :
    (pjoin a b).length = a.length + 1 + b.length := by
  have h1 : ("/" : String).length = 1 := rfl
  simp [pjoin, String.length_append, h1]

theorem license_ne_pjoin_readme (basePath : String) :
    ("LICENSE" : String) ≠ pjoin basePath "README.md" := by
  intro he
  have hlen := congrArg String.length he
  rw [length_pjoin] at hlen
  have h1 : ("LICENSE" : String).length = 7 := rfl
  have h2 : ("README.md" : String).length = 9 := rfl
  rw [h1, h2] at hlen
  omega

theorem pjoin_license_ne_pjoin_readme (basePath : String) :
    pjoin basePath "LICENSE" ≠ pjoin basePath "README.md" := by
  intro he
  have hlen := congrArg String.length he
  rw [length_pjoin, length_pjoin] at hlen
  have h1 : ("LICENSE" : String).length = 7 := rfl
  have h2 : ("README.md" : String).length = 9 := rfl
  rw [h1, h2] at hlen
  omega

/-- When the package directory lacks `README.md` and both workspace-root
files are readable, the shared-file step succeeds and the package copies
are byte-identical to the originals. -/
theorem copySharedFiles_copies (fsys : FS) (basePath : FPath) (r l : String)
    (hno : existsSync fsys (pjoin basePath "README.md") = false)
    (hr : readFile fsys "README.md" = some r)
    (hl : readFile fsys "LICENSE" = some l) :
    copySharedFiles fsys basePath =
      .ok (writeFile (writeFile fsys (pjoin basePath "README.md") r)
            (pjoin basePath "LICENSE") l) ∧
    readFile (writeFile (writeFile fsys (pjoin basePath "README.md") r)
        (pjoin basePath "LICENSE") l) (pjoin basePath "README.md") = some r ∧
    readFile (writeFile (writeFile fsys (pjoin basePath "README.md") r)
        (pjoin basePath "LICENSE") l) (pjoin basePath "LICENSE") = some l := by
  refine ⟨?_, ?_, ?_⟩
  · have hl' : readFile (writeFile fsys (pjoin basePath "README.md") r) "LICENSE"
        = some l := by
      rw [readFile_writeFile_of_ne _ _ _ _ (license_ne_pjoin_readme basePath)]
      exact hl
    simp [copySharedFiles, hno, copyFileSync, hr, hl', Bind.bind, Except.bind]
  · rw [readFile_writeFile_of_ne _ _ _ _ (pjoin_license_ne_pjoin_readme basePath).symm]
    exact readFile_writeFile_self _ _ _
  · exact readFile_writeFile_self _ _ _

/-! ## Demonstration data -/

/-- A dependency-free demo package. -/
def pkgB : Package :=
  { name := "b", location := "packages/b", scriptsBuild := none
    isPrivate := false, deps := [] }

/-- A demo package depending on `pkgB`. -/
def pkgA : Package :=
  { name := "a", location := "packages/a", scriptsBuild := none
    isPrivate := false, deps := ["b"] }

/-- A demo package with a custom `scripts.build`. -/
def pkgCustom : Package :=
  { name := "c", location := "packages/c", scriptsBuild := some "tsc"
    isPrivate := false, deps := [] }

/-- A private demo package. -/
def pkgPriv : Package :=
  { name := "p", location := "packages/p", scriptsBuild := none
    isPrivate := true, deps := [] }

/-- A bundler oracle whose builds all succeed. -/
def bundlerOk : BuildFormat → Except String Unit := fun _ => .ok ()

/-- A demo filesystem: workspace-root shared files plus `pkgA`'s own
`README.md` (so the copy step is a no-op for `pkgA`). -/
def fsDemo : FS :=
  [ ("README.md", "root readme"), ("LICENSE", "root license")
  , ("packages/a/README.md", "a readme") ]

/-! ## Claims -/

/-- C1: for every workspace, the sequence returned by
`getSortedPackages` is dependency-ordered: whenever package `A` of the
output depends on package `B` of the output, `B` appears at or before
`A`'s position in the flattened sequence (every prefix of the sequence
containing `A` already contains `B`). -/
theorem c1_getSortedPackages_dep_ordered (batches : List (List Package))
    (hb : Batched batches) (A B : Package)
    (hB : B ∈ getSortedPackages batches) (hdep : B.name ∈ A.deps)
    (n : Nat) (hA : A ∈ (getSortedPackages batches).take n) :
    B ∈ (getSortedPackages batches).take n := by
  rw [getSortedPackages_eq_flatten] at hB hA ⊢
  exact batched_take_closed hb A B hB hdep n hA

theorem c1_witness :
    pkgB ∈ (getSortedPackages [[pkgB], [pkgA]]).take 2 :=
  c1_getSortedPackages_dep_ordered [[pkgB], [pkgA]]
    (Batched.cons (by decide) (Batched.cons (by decide) Batched.nil))
    pkgA pkgB (by decide) (by decide) 2 (by decide)

/-- C2: for every discovered package whose manifest has a non-empty
`scripts.build`, the planner logs the skip notice and takes no further
action: the filesystem is untouched and no bundle or declaration-emission
action is issued. -/
theorem c2_custom_build_skips (bundler : BuildFormat → Except String Unit)
    (fsys : FS) (watch : Bool) (pkg : Package) (s : String)
    (hs : pkg.scriptsBuild = some s) (hne : s ≠ "") :
    processPackage bundler fsys watch pkg =
      .ok { fs := fsys
            logs := [pkg.name ++ " has custom build! skipping default build."]
            actions := [] } := by
  have ht : truthy pkg.scriptsBuild = true := by
    rw [hs]
    simp [truthy, hne]
  simp [processPackage, ht]

theorem c2_witness :
    processPackage bundlerOk fsDemo false pkgCustom =
      .ok { fs := fsDemo
            logs := [pkgCustom.name ++ " has custom build! skipping default build."]
            actions := [] } :=
  c2_custom_build_skips bundlerOk fsDemo false pkgCustom "tsc" rfl (by decide)

/-- A demo filesystem where `packages/d`'s directory already contains a
`LICENSE` (with its own contents) but no `README.md`. -/
def fsWithLicense : FS :=
  [ ("packages/d/LICENSE", "old license")
  , ("README.md", "root readme"), ("LICENSE", "root license") ]

/-- A demo package located at `packages/d`. -/
def pkgD : Package :=
  { name := "d", location := "packages/d", scriptsBuild := none
    isPrivate := false, deps := [] }

/-- C3 counterexample: the claim says the copy happens exactly when
NEITHER `README.md` NOR `LICENSE` exists at the package's `basePath`.
In `fsWithLicense` the package directory `packages/d` already contains
a `LICENSE`, so under the claim no copy may happen and the filesystem
must be left unchanged; the code checks only `README.md`, copies both
files, and overwrites the pre-existing `LICENSE` with the workspace-root
contents. -/
theorem c3_counterexample :
    existsSync fsWithLicense (pjoin "packages/d" "LICENSE") = true ∧
    readFile fsWithLicense (pjoin "packages/d" "LICENSE") = some "old license" ∧
    (copySharedFiles fsWithLicense "packages/d").map
        (fun f => readFile f (pjoin "packages/d" "LICENSE"))
      = .ok (some "root license") := ⟨rfl, rfl, rfl⟩

/-- C3 (amended): the shared-file step copies the workspace-root
`README.md` and `LICENSE` into the package directory exactly when
`README.md` does not exist at the package's `basePath` (the presence of
`LICENSE` is not checked, and an existing `LICENSE` is overwritten);
after the step, every package whose `basePath` lacked `README.md` has
both files present and byte-identical to the workspace-root originals,
and a package whose `basePath` has `README.md` is left untouched. -/
theorem c3_shared_files_amended (fsys : FS) (basePath : FPath) (r l : String)
    (hr : readFile fsys "README.md" = some r)
    (hl : readFile fsys "LICENSE" = some l) :
    (existsSync fsys (pjoin basePath "README.md") = true →
      copySharedFiles fsys basePath = .ok fsys) ∧
    (existsSync fsys (pjoin basePath "README.md") = false →
      ∃ f, copySharedFiles fsys basePath = .ok f ∧
        readFile f (pjoin basePath "README.md") = some r ∧
        readFile f (pjoin basePath "LICENSE") = some l) := by
  constructor
  · intro hyes
    simp [copySharedFiles, hyes]
  · intro hno
    obtain ⟨heq, hrd, hld⟩ := copySharedFiles_copies fsys basePath r l hno hr hl
    exact ⟨_, heq, hrd, hld⟩

theorem c3_witness :
    ∃ f, copySharedFiles fsWithLicense "packages/d" = .ok f ∧
      readFile f (pjoin "packages/d" "README.md") = some "root readme" ∧
      readFile f (pjoin "packages/d" "LICENSE") = some "root license" :=
  (c3_shared_files_amended fsWithLicense "packages/d" "root readme" "root license"
    rfl rfl).2 (by decide)

/-- C10: for every non-skipped package whose directory already contains
`README.md`, the shared-file step performs no filesystem writes at all:
planning succeeds and returns the filesystem exactly as given, so a
missing package `LICENSE` is not copied and existing files are
unchanged. -/
theorem c10_readme_present_no_writes (bundler : BuildFormat → Except String Unit)
    (fsys : FS) (watch : Bool) (pkg : Package)
    (hskip : truthy pkg.scriptsBuild = false)
    (hreadme : existsSync fsys (pjoin pkg.location "README.md") = true) :
    processPackage bundler fsys watch pkg =
      .ok { fs := fsys
            logs := []
            actions :=
              [ .bundle .cjs (globTs fsys pkg.location)
                  (pjoin pkg.location "build") watch false
              , .bundle .esm (globTs fsys pkg.location)
                  (pjoin pkg.location "build") watch watch
              , .emitDecl (globTs fsys pkg.location)
                  (pjoin pkg.location "build") ] } := by
  simp [processPackage, hskip, copySharedFiles, hreadme, Bind.bind, Except.bind]

theorem c10_witness :
    processPackage bundlerOk fsDemo false pkgA =
      .ok { fs := fsDemo
            logs := []
            actions :=
              [ .bundle .cjs (globTs fsDemo pkgA.location)
                  (pjoin pkgA.location "build") false false
              , .bundle .esm (globTs fsDemo pkgA.location)
                  (pjoin pkgA.location "build") false false
              , .emitDecl (globTs fsDemo pkgA.location)
                  (pjoin pkgA.location "build") ] } :=
  c10_readme_present_no_writes bundlerOk fsDemo false pkgA (by decide) (by decide)

/-- C8: when the copy step is reached (non-skipped package, no
`README.md` in its directory) and a workspace-root shared source file
(`README.md` or `LICENSE`) is missing, the run fails with a
`MissingSharedFileError` and aborts: the result is the same error for
every list of subsequent packages, so no later package is planned or
built. -/
theorem c8_missing_shared_file_aborts (bundler : BuildFormat → Except String Unit)
    (fsys : FS) (watch : Bool) (bad : Package)
    (hskip : truthy bad.scriptsBuild = false)
    (hnoreadme : existsSync fsys (pjoin bad.location "README.md") = false)
    (hmiss : readFile fsys "README.md" = none ∨ readFile fsys "LICENSE" = none) :
    ∃ e, strStartsWith e "MissingSharedFileError" = true ∧
      ∀ rest, runPackages bundler fsys watch (bad :: rest) = .error e := by
  rcases hmiss with hmr | hml
  · refine ⟨"MissingSharedFileError: README.md", by decide, ?_⟩
    intro rest
    simp [runPackages, processPackage, hskip, copySharedFiles, hnoreadme,
      copyFileSync, hmr, Bind.bind, Except.bind]
  · cases hread : readFile fsys "README.md" with
    | none =>
      refine ⟨"MissingSharedFileError: README.md", by decide, ?_⟩
      intro rest
      simp [runPackages, processPackage, hskip, copySharedFiles, hnoreadme,
        copyFileSync, hread, Bind.bind, Except.bind]
    | some r =>
      refine ⟨"MissingSharedFileError: LICENSE", by decide, ?_⟩
      intro rest
      have hml' : readFile (writeFile fsys (pjoin bad.location "README.md") r)
          "LICENSE" = none := by
        rw [readFile_writeFile_of_ne _ _ _ _ (license_ne_pjoin_readme bad.location)]
        exact hml
      simp [runPackages, processPackage, hskip, copySharedFiles, hnoreadme,
        copyFileSync, hread, hml', Bind.bind, Except.bind]

/-- A demo filesystem whose workspace root lacks `LICENSE`. -/
def fsNoRootLicense : FS := [("README.md", "root readme")]

theorem c8_witness :
    ∃ e, strStartsWith e "MissingSharedFileError" = true ∧
      ∀ rest, runPackages bundlerOk fsNoRootLicense false (pkgD :: rest)
        = .error e :=
  c8_missing_shared_file_aborts bundlerOk fsNoRootLicense false pkgD
    (by decide) (by decide) (Or.inr rfl)

/-- The shape of a successful non-skipped plan: the post-copy
filesystem, no plan-time logs, and the three build actions, each over
exactly the globbed entry points. -/
theorem processPackage_nonskip (bundler : BuildFormat → Except String Unit)
    (fsys fs1 : FS) (watch : Bool) (pkg : Package)
    (hskip : truthy pkg.scriptsBuild = false)
    (hcopy : copySharedFiles fsys pkg.location = .ok fs1) :
    processPackage bundler fsys watch pkg =
      .ok { fs := fs1
            logs := []
            actions :=
              [ .bundle .cjs (globTs fs1 pkg.location)
                  (pjoin pkg.location "build") watch false
              , .bundle .esm (globTs fs1 pkg.location)
                  (pjoin pkg.location "build") watch watch
              , .emitDecl (globTs fs1 pkg.location)
                  (pjoin pkg.location "build") ] } := by
  simp [processPackage, hskip, hcopy, Bind.bind, Except.bind]

/-- C5: for every non-skipped package whose shared-file step succeeds,
the computed `entryPoints` set is exactly the files matching
`<basePath>/src/**/*.ts` (the `globTs` of the post-copy filesystem), and
an empty match set is not an error: planning succeeds and all three
build actions receive exactly that (possibly empty) entry-point list. -/
theorem c5_entry_points (bundler : BuildFormat → Except String Unit)
    (fsys fs1 : FS) (watch : Bool) (pkg : Package)
    (hskip : truthy pkg.scriptsBuild = false)
    (hcopy : copySharedFiles fsys pkg.location = .ok fs1) :
    processPackage bundler fsys watch pkg =
      .ok { fs := fs1
            logs := []
            actions :=
              [ .bundle .cjs (globTs fs1 pkg.location)
                  (pjoin pkg.location "build") watch false
              , .bundle .esm (globTs fs1 pkg.location)
                  (pjoin pkg.location "build") watch watch
              , .emitDecl (globTs fs1 pkg.location)
                  (pjoin pkg.location "build") ] } :=
  processPackage_nonskip bundler fsys fs1 watch pkg hskip hcopy

theorem c5_witness :
    globTs fsDemo pkgA.location = [] ∧
    processPackage bundlerOk fsDemo true pkgA =
      .ok { fs := fsDemo
            logs := []
            actions :=
              [ .bundle .cjs [] (pjoin pkgA.location "build") true false
              , .bundle .esm [] (pjoin pkgA.location "build") true true
              , .emitDecl [] (pjoin pkgA.location "build") ] } :=
  ⟨by decide, c5_entry_points bundlerOk fsDemo fsDemo true pkgA (by decide) rfl⟩

/-- The filter condition of §4.2(b), stated claim-side: a package
matches `scope` (vacuously when no `scope` is given), does not match
`ignore` (vacuously when no `ignore` is given), and is not private. -/
def keptByFilter (globMatch : String → String → Bool)
    (scope ignore : Option String) (p : Package) : Prop :=
  (∀ s, scope = some s → globMatch s p.name = true) ∧
  (∀ i, ignore = some i → globMatch i p.name = false) ∧
  p.isPrivate = false

/-- C4: the processed package set is exactly the discovered packages
that match the scope filter (or all, when no scope is given), do not
match the ignore filter, and are not private — provided the batching
step preserves membership (its contract only reorders the filtered
set). -/
theorem c4_processed_set (globMatch : String → String → Bool)
    (packages : List Package) (scope ignore : Option String)
    (batches : List (List Package))
    (hbatch : ∀ q, q ∈ getSortedPackages batches ↔
        q ∈ filterPackages globMatch packages scope ignore)
    (p : Package) :
    p ∈ getSortedPackages batches ↔
      (p ∈ packages ∧ keptByFilter globMatch scope ignore p) := by
  rw [hbatch]
  simp only [filterPackages, List.mem_filter, keptByFilter]
  constructor
  · rintro ⟨hmem, hcond⟩
    simp only [Bool.and_eq_true, Bool.not_eq_true'] at hcond
    obtain ⟨⟨hsc, hig⟩, hpriv⟩ := hcond
    refine ⟨hmem, ?_, ?_, hpriv⟩
    · intro s hs
      rw [hs] at hsc
      exact hsc
    · intro i hi
      rw [hi] at hig
      exact hig
  · rintro ⟨hmem, hsc, hig, hpriv⟩
    refine ⟨hmem, ?_⟩
    simp only [Bool.and_eq_true, Bool.not_eq_true']
    refine ⟨⟨?_, ?_⟩, hpriv⟩
    · cases hs : scope with
      | none => rfl
      | some s => exact hsc s hs
    · cases hi : ignore with
      | none => rfl
      | some i => exact hig i hi

theorem c4_witness :
    pkgA ∈ getSortedPackages [[pkgA]] ↔
      (pkgA ∈ [pkgA, pkgB, pkgPriv] ∧
        keptByFilter (fun s n => s == n) (some "a") (some "b") pkgA) :=
  c4_processed_set (fun s n => s == n) [pkgA, pkgB, pkgPriv]
    (some "a") (some "b") [[pkgA]]
    (fun q => by
      have h : filterPackages (fun s n => s == n) [pkgA, pkgB, pkgPriv]
          (some "a") (some "b") = [pkgA] := by decide
      rw [getSortedPackages_eq_flatten, h]
      simp)
    pkgA

/-- C6: for every invocation of the type-declaration emitter, emission
is attempted regardless of the diagnostics, every collected diagnostic
(pre-emit plus emit-result) is printed, and a diagnostic with an
attached source file is printed with file name, one-based line and
column; diagnostics never abort the emission (the outcome always
reports `emitted`). -/
theorem c6_diagnostics_printed (pkgName : String)
    (preEmit emitDiags : List Diagnostic) :
    (emitTSDeclaration pkgName preEmit emitDiags).emitted = true ∧
    (∀ d ∈ preEmit ++ emitDiags,
      formatDiagnostic d ∈ (emitTSDeclaration pkgName preEmit emitDiags).logs) ∧
    (∀ d : Diagnostic, ∀ fn, d.file = some fn →
      formatDiagnostic d =
        fn ++ " (" ++ toString (d.line + 1) ++ "," ++ toString (d.character + 1)
          ++ "): " ++ d.messageText) := by
  refine ⟨rfl, ?_, ?_⟩
  · intro d hd
    simp only [emitTSDeclaration, List.mem_cons]
    exact Or.inr (List.mem_map_of_mem _ hd)
  · intro d fn h
    simp [formatDiagnostic, h]

/-- A demo diagnostic with an attached source file. -/
def diagDemo : Diagnostic :=
  { file := some "packages/a/src/x.ts", line := 4, character := 2
    messageText := "boom" }

theorem c6_witness :
    formatDiagnostic diagDemo ∈ (emitTSDeclaration "a" [diagDemo] []).logs :=
  (c6_diagnostics_printed "a" [diagDemo] []).2.1 diagDemo (by decide)

/-- C7: when the watch option is set the ES-module build action carries
a rebuild hook; the hook re-triggers declaration emission on every
successful rebuild, while a failed rebuild logs the error and does not
re-trigger emission. -/
theorem c7_watch_rebuild (pkgName : String)
    (preEmit emitDiags : List Diagnostic) :
    (onRebuild pkgName preEmit emitDiags none).emission
        = some (emitTSDeclaration pkgName preEmit emitDiags) ∧
    (onRebuild pkgName preEmit emitDiags none).errorLog = none ∧
    (∀ e, (onRebuild pkgName preEmit emitDiags (some e)).errorLog = some e ∧
      (onRebuild pkgName preEmit emitDiags (some e)).emission = none) ∧
    (∀ (bundler : BuildFormat → Except String Unit) (fsys fs1 : FS) (pkg : Package),
      truthy pkg.scriptsBuild = false →
      copySharedFiles fsys pkg.location = .ok fs1 →
      ∃ r, processPackage bundler fsys true pkg = .ok r ∧
        .bundle .esm (globTs fs1 pkg.location)
          (pjoin pkg.location "build") true true ∈ r.actions) := by
  refine ⟨rfl, rfl, fun e => ⟨rfl, rfl⟩, ?_⟩
  intro bundler fsys fs1 pkg hskip hcopy
  refine ⟨_, processPackage_nonskip bundler fsys fs1 true pkg hskip hcopy, ?_⟩
  simp

theorem c7_witness :
    ∃ r, processPackage bundlerOk fsDemo true pkgA = .ok r ∧
      .bundle .esm (globTs fsDemo pkgA.location)
        (pjoin pkgA.location "build") true true ∈ r.actions :=
  (c7_watch_rebuild "a" [] []).2.2.2 bundlerOk fsDemo fsDemo pkgA
    (by decide) rfl

/-- The planner never consumes the bundler oracle. -/
theorem processPackage_bundler_irrel (b1 b2 : BuildFormat → Except String Unit)
    (fsys : FS) (watch : Bool) (pkg : Package) :
    processPackage b1 fsys watch pkg = processPackage b2 fsys watch pkg := rfl

/-- The whole run never consumes the bundler oracle. -/
theorem runPackages_bundler_irrel (b1 b2 : BuildFormat → Except String Unit)
    (watch : Bool) (pkgs : List Package) :
    ∀ fsys : FS, runPackages b1 fsys watch pkgs = runPackages b2 fsys watch pkgs := by
  induction pkgs with
  | nil => intro fsys; rfl
  | cons pkg rest ih =>
    intro fsys
    simp only [runPackages]
    rw [processPackage_bundler_irrel b1 b2]
    cases processPackage b2 fsys watch pkg with
    | error e => rfl
    | ok r =>
      simp only [Bind.bind, Except.bind]
      rw [ih r.fs]

/-- C9: declaration emission is issued synchronously after both bundle
actions (it is the last of the three issued actions), and the bundler's
asynchronous outcome is never awaited or caught: the run's result —
including its success/error status — is identical under any two bundler
outcomes, so a bundler rejection never surfaces as a structured failure
of the run. -/
theorem c9_bundler_not_awaited (b1 b2 : BuildFormat → Except String Unit)
    (fsys : FS) (watch : Bool) (pkgs : List Package) :
    runPackages b1 fsys watch pkgs = runPackages b2 fsys watch pkgs ∧
    (∀ (pkg : Package) (r : PkgResult),
      truthy pkg.scriptsBuild = false →
      processPackage b1 fsys watch pkg = .ok r →
      ∃ ep od,
        r.actions =
          [ .bundle .cjs ep od watch false
          , .bundle .esm ep od watch watch
          , .emitDecl ep od ]) := by
  constructor
  · exact runPackages_bundler_irrel b1 b2 watch pkgs fsys
  · intro pkg r hskip hok
    rcases hc : copySharedFiles fsys pkg.location with e | fs1
    · rw [processPackage] at hok
      simp [hskip, hc, Bind.bind, Except.bind] at hok
    · have := processPackage_nonskip b1 fsys fs1 watch pkg hskip hc
      rw [this] at hok
      injection hok with hok
      exact ⟨globTs fs1 pkg.location, pjoin pkg.location "build", by rw [← hok]⟩

/-- A bundler oracle whose builds all fail. -/
def bundlerFail : BuildFormat → Except String Unit := fun _ => .error "BundleError"

theorem c9_witness :
    runPackages bundlerFail fsDemo false [pkgA]
        = runPackages bundlerOk fsDemo false [pkgA] ∧
    ∃ ep od,
      ({ fs := fsDemo
         logs := []
         actions :=
           [ .bundle .cjs [] (pjoin pkgA.location "build") false false
           , .bundle .esm [] (pjoin pkgA.location "build") false false
           , .emitDecl [] (pjoin pkgA.location "build") ] } : PkgResult).actions =
        [ .bundle .cjs ep od false false
        , .bundle .esm ep od false false
        , .emitDecl ep od ] :=
  ⟨(c9_bundler_not_awaited bundlerFail bundlerOk fsDemo false [pkgA]).1,
    (c9_bundler_not_awaited bundlerFail bundlerOk fsDemo false [pkgA]).2 pkgA
      { fs := fsDemo
        logs := []
        actions :=
          [ .bundle .cjs [] (pjoin pkgA.location "build") false false
          , .bundle .esm [] (pjoin pkgA.location "build") false false
          , .emitDecl [] (pjoin pkgA.location "build") ] }
      (by decide) (by rfl)⟩
